import Mathlib

/-!
Shallow embedding of `crates/test-utils/src/network.rs`: bootstrap of an
ephemeral test network (validator swarm + config artifacts) and the RPC-fronted
variant.  File I/O, the swarm, and the RPC server are collaborators outside the
slice; they are modelled explicitly, with every fallible external step governed
by an `Env` of outcome flags, and every externally visible effect recorded in a
trace of `Event`s.
-/

namespace SuiTest

/-- Modelled from the spec: file-name constants re-exported by `sui_config`
(`SUI_NETWORK_CONFIG` etc.); the crate is outside the slice, so the concrete
strings are representative — only their identities matter. -/
def SUI_NETWORK_CONFIG : String := "network.yaml"

/-- Modelled from the spec: wallet/client config file name from `sui_config`. -/
def SUI_CLIENT_CONFIG : String := "client.yaml"

/-- Modelled from the spec: keystore file name from `sui_config`. -/
def SUI_KEYSTORE_FILENAME : String := "sui.keystore"

/-- Modelled from the spec: gateway config file name from `sui_config`. -/
def SUI_GATEWAY_CONFIG : String := "gateway.yaml"

/-- Filesystem paths, modelled as lists of path segments. -/
abbrev FsPath := List String

/-- `dir.join(file)` on paths. -/
def pathJoin (dir : FsPath) (file : String) : FsPath := dir ++ [file]

/-- Modelled from the spec: an account keypair (`sui_types::crypto`); only its
public part is observable in this slice. -/
structure KeyPair where
  pubkey : Nat
deriving DecidableEq

/-- Account addresses (`sui_types::base_types::SuiAddress`). -/
abbrev SuiAddress := Nat

/-- Modelled from the spec: `key.public().into()` — the address derived from a
public key.  The derivation itself is outside the slice; it is modelled as the
public key, which keeps it injective as in the real system. -/
def addressOfPublic (pk : Nat) : SuiAddress := pk

/-- Modelled from the spec: a genesis configuration describes the initial
accounts to provision (`sui_config::genesis_config::GenesisConfig`). -/
structure GenesisConfig where
  account_keys : List KeyPair
deriving DecidableEq

/-- Modelled from the spec: the network configuration held by the swarm —
account keys derived from genesis plus the validator set fixed at build time. -/
structure NetworkConfig where
  account_keys : List KeyPair
  validator_set : List Nat
deriving DecidableEq

/-- Modelled from the spec: a running swarm (`sui_swarm::memory::Swarm`):
a committee of validators, zero or more fullnodes, the network config, and the
working directory. -/
structure Swarm where
  validators : List Nat
  fullnodes : List Nat
  config : NetworkConfig
  dir : FsPath
deriving DecidableEq

/-- Modelled from the spec: each node owns a storage directory of its own under
the working directory, distinct from the client-side `client_db` path. -/
def validator_db_path (dir : FsPath) (i : Nat) : FsPath :=
  dir ++ ["authorities_db", Nat.repr i]

/-- Modelled from the spec: fullnode storage directory. -/
def fullnode_db_path (dir : FsPath) (i : Nat) : FsPath :=
  dir ++ ["fullnode_db", Nat.repr i]

/-- All node-owned storage paths of a swarm. -/
def Swarm.node_storage_paths (s : Swarm) : List FsPath :=
  s.validators.map (validator_db_path s.dir) ++ s.fullnodes.map (fullnode_db_path s.dir)

/-- Modelled from the spec: `Swarm::builder()` configuration —
committee size (a `NonZeroUsize`, so callers must supply ≥ 1), fullnode count,
and an optional initial-accounts (genesis) configuration. -/
structure SwarmBuilder where
  committee_size : Nat
  fullnode_count : Nat
  genesis : Option GenesisConfig
deriving DecidableEq

/-- Outcomes of the fallible external steps of one bootstrap run, plus the
environment-chosen data (working directory, default genesis accounts,
OS-assigned port).  Each flag tells whether the corresponding external call
succeeds in this run. -/
structure Env where
  working_dir : FsPath
  default_account_keys : List KeyPair
  os_port : Nat
  launch_ok : Bool
  save_network_ok : Bool
  save_keystore_ok : Bool
  save_gateway_ok : Bool
  save_wallet_ok : Bool
  bind_ok : Bool
  create_client_ok : Bool
  merge_ok : Bool
  server_start_ok : Bool
  read_wallet_ok : Bool
  rewrite_wallet_ok : Bool
  http_client_ok : Bool
  rpc_client_ok : Bool
  new_context_ok : Bool
  sync_ok : Bool
deriving DecidableEq

/-- Modelled from the spec: `SwarmBuilder::build` — a swarm with
`committee_size` validators and `fullnode_count` fullnodes in the working
directory; account keys come from the genesis configuration, or from the
default genesis when none is given. -/
def SwarmBuilder.build (b : SwarmBuilder) (env : Env) : Swarm :=
  let keys := (b.genesis.getD { account_keys := env.default_account_keys }).account_keys
  { validators := List.range b.committee_size
    fullnodes := List.range b.fullnode_count
    config := { account_keys := keys, validator_set := List.range b.committee_size }
    dir := env.working_dir }

/-- `gateway_state::GatewayConfig`: local storage path plus validator set (the
remaining fields are filled by `Default::default()` in both uses and carry no
information in this slice). -/
structure GatewayConfig where
  db_folder_path : FsPath
  validator_set : List Nat
deriving DecidableEq

/-- `sui_sdk::crypto::KeystoreType` as used here. -/
inductive KeystoreType where
  | File (path : FsPath)
deriving DecidableEq

/-- `config::GatewayType`: the tagged gateway reference. -/
inductive GatewayType where
  | Embedded (config : GatewayConfig)
  | RPC (url : String)
deriving DecidableEq

/-- `config::SuiClientConfig`: the wallet configuration. -/
structure SuiClientConfig where
  accounts : List SuiAddress
  keystore : KeystoreType
  gateway : GatewayType
  active_address : Option SuiAddress
deriving DecidableEq

/-- Errors of the bootstrap pipeline, one constructor per fallible stage, so
"the first error" of a run is observable. -/
inductive Error where
  | launch
  | persistNetwork
  | persistKeystore
  | persistGateway
  | persistWallet
  | bind
  | clientConstruction
  | register
  | serverStart
  | readWallet
  | rewrite
  | httpClient
  | rpcClient
  | newContext
  | sync
deriving DecidableEq

/-- Modelled from the spec: the embedded gateway client built by
`sui_gateway::create_client` from a persisted gateway configuration. -/
structure GatewayClientM where
  cfg : GatewayConfig
  id : Nat
deriving DecidableEq

/-- The four JSON-RPC API surfaces registered by `start_rpc_gateway`. -/
inductive Api where
  | gatewayControl
  | readApi
  | transactionBuilder
  | walletSync
deriving DecidableEq

/-- Externally visible effects of a run, in the order they happen. -/
inductive Event where
  | launched
  | wroteNetwork (path : FsPath) (cfg : NetworkConfig)
  | wroteKeystore (path : FsPath) (entries : List (SuiAddress × KeyPair))
  | wroteGateway (path : FsPath) (cfg : GatewayConfig)
  | wroteWallet (path : FsPath) (cfg : SuiClientConfig)
  | bound (host : String) (port : Nat)
  | clientCreated (client : GatewayClientM)
  | registered (api : Api) (client : GatewayClientM)
  | serverStarted
  | readWalletConf (path : FsPath)
  | rewroteWallet (path : FsPath) (cfg : SuiClientConfig)
  | builtHttpClient (url : String)
  | builtRpcClient (url : String)
  | contextCreated (path : FsPath)
  | syncedClient (address : Option SuiAddress)
deriving DecidableEq

/-- `const NUM_VALIDAOTR: usize = 4;` (name kept from the source). -/
def NUM_VALIDAOTR : Nat := 4

/-- The swarm built by `start_test_network_with_fullnodes` (lines 43–50):
`Swarm::builder().committee_size(NUM_VALIDAOTR).with_fullnode_count(fullnode_count)`,
with `initial_accounts_config` applied when a genesis config is given. -/
def builtSwarm (env : Env) (genesis_config : Option GenesisConfig)
    (fullnode_count : Nat) : Swarm :=
  let builder0 : SwarmBuilder :=
    { committee_size := NUM_VALIDAOTR, fullnode_count := fullnode_count, genesis := none }
  let builder :=
    match genesis_config with
    | some g => { builder0 with genesis := some g }
    | none => builder0
  builder.build env

/-- The provisioned account addresses (lines 53–58):
`swarm.config().account_keys.iter().map(|key| key.public().into())`. -/
def accountsOf (env : Env) (gc : Option GenesisConfig) (fc : Nat) : List SuiAddress :=
  (builtSwarm env gc fc).config.account_keys.map (fun k => addressOfPublic k.pubkey)

/-- The keystore assembled in lines 68–71: `SuiKeystore::default()` then one
`add_key(key.public().into(), key.copy())` per account key. -/
def keystoreOf (env : Env) (gc : Option GenesisConfig) (fc : Nat) :
    List (SuiAddress × KeyPair) :=
  (builtSwarm env gc fc).config.account_keys.map
    (fun k => (addressOfPublic k.pubkey, k))

/-- The gateway configuration persisted in lines 78–83: `client_db` storage
path and the swarm's validator set. -/
def gatewayConfigOf (env : Env) (gc : Option GenesisConfig) (fc : Nat) : GatewayConfig :=
  { db_folder_path := pathJoin (builtSwarm env gc fc).dir "client_db"
    validator_set := (builtSwarm env gc fc).config.validator_set }

/-- The wallet configuration persisted in lines 86–96. -/
def walletConfigOf (env : Env) (gc : Option GenesisConfig) (fc : Nat) : SuiClientConfig :=
  { accounts := accountsOf env gc fc
    keystore := KeystoreType.File (pathJoin (builtSwarm env gc fc).dir SUI_KEYSTORE_FILENAME)
    gateway := GatewayType.Embedded (gatewayConfigOf env gc fc)
    active_address := (accountsOf env gc fc).head? }

/-- The full effect trace of a successful `start_test_network_with_fullnodes`
run; each failing stage leaves the prefix of events before it. -/
def baseTrace (env : Env) (gc : Option GenesisConfig) (fc : Nat) : List Event :=
  [Event.launched,
   Event.wroteNetwork (pathJoin (builtSwarm env gc fc).dir SUI_NETWORK_CONFIG)
     (builtSwarm env gc fc).config,
   Event.wroteKeystore (pathJoin (builtSwarm env gc fc).dir SUI_KEYSTORE_FILENAME)
     (keystoreOf env gc fc),
   Event.wroteGateway (pathJoin (builtSwarm env gc fc).dir SUI_GATEWAY_CONFIG)
     (gatewayConfigOf env gc fc),
   Event.wroteWallet (pathJoin (builtSwarm env gc fc).dir SUI_CLIENT_CONFIG)
     (walletConfigOf env gc fc)]

/-- `start_test_network_with_fullnodes` (lines 39–100): build and launch the
swarm, then persist network config, keystore, gateway config and wallet config
into the working directory, returning the swarm.  Every fallible external call
is governed by the corresponding `Env` flag; `?` short-circuits on the first
failure. -/
def start_test_network_with_fullnodes (env : Env) (genesis_config : Option GenesisConfig)
    (fullnode_count : Nat) : Except Error Swarm × List Event :=
  let swarm := builtSwarm env genesis_config fullnode_count
  if env.launch_ok then
    if env.save_network_ok then
      if env.save_keystore_ok then
        if env.save_gateway_ok then
          if env.save_wallet_ok then
            (Except.ok swarm, baseTrace env genesis_config fullnode_count)
          else (Except.error Error.persistWallet,
                [Event.launched,
                 Event.wroteNetwork (pathJoin swarm.dir SUI_NETWORK_CONFIG) swarm.config,
                 Event.wroteKeystore (pathJoin swarm.dir SUI_KEYSTORE_FILENAME)
                   (keystoreOf env genesis_config fullnode_count),
                 Event.wroteGateway (pathJoin swarm.dir SUI_GATEWAY_CONFIG)
                   (gatewayConfigOf env genesis_config fullnode_count)])
        else (Except.error Error.persistGateway,
              [Event.launched,
               Event.wroteNetwork (pathJoin swarm.dir SUI_NETWORK_CONFIG) swarm.config,
               Event.wroteKeystore (pathJoin swarm.dir SUI_KEYSTORE_FILENAME)
                 (keystoreOf env genesis_config fullnode_count)])
      else (Except.error Error.persistKeystore,
            [Event.launched,
             Event.wroteNetwork (pathJoin swarm.dir SUI_NETWORK_CONFIG) swarm.config])
    else (Except.error Error.persistNetwork, [Event.launched])
  else (Except.error Error.launch, [])

/-- `start_test_network` (lines 33–37). -/
def start_test_network (env : Env) (genesis_config : Option GenesisConfig) :
    Except Error Swarm × List Event :=
  start_test_network_with_fullnodes env genesis_config 0

/-- The most recent gateway configuration persisted at `p` (what
`create_client` reads back from disk). -/
def lastGatewayWrite (fs : List Event) (p : FsPath) : Option GatewayConfig :=
  fs.reverse.findSome? fun e =>
    match e with
    | Event.wroteGateway q g => if q = p then some g else none
    | _ => none

/-- The most recent wallet configuration persisted at `p` (what
`PersistedConfig::read` and `WalletContext::new` read back from disk). -/
def lastWalletWrite (fs : List Event) (p : FsPath) : Option SuiClientConfig :=
  fs.reverse.findSome? fun e =>
    match e with
    | Event.wroteWallet q c => if q = p then some c else none
    | Event.rewroteWallet q c => if q = p then some c else none
    | _ => none

/-- Modelled from the spec: `sui_gateway::create_client` builds one
embedded-mode gateway client from the gateway configuration persisted at
`config_path`; fails when the configuration is unreadable. -/
def create_client (env : Env) (fs : List Event) (config_path : FsPath) :
    Option GatewayClientM :=
  if env.create_client_ok then
    match lastGatewayWrite fs config_path with
    | some g => some { cfg := g, id := 0 }
    | none => none
  else none

/-- `std::net::SocketAddr`, host and port. -/
structure SocketAddr where
  host : String
  port : Nat
deriving DecidableEq

/-- Display form of a socket address, as used by `format!("http://{}", addr)`. -/
def addrToString (a : SocketAddr) : String := a.host ++ ":" ++ Nat.repr a.port

/-- The literal bind request of line 123: port 0 asks the OS for an ephemeral
port. -/
def rpc_listen_request : String := "127.0.0.1:0"

/-- The RPC server handle (`HttpServerHandle`); carries no data in this slice. -/
abbrev HttpServerHandle := Unit

/-- Effect trace of a successful `start_rpc_gateway` run. -/
def rpcGatewayTrace (env : Env) (client : GatewayClientM) : List Event :=
  [Event.bound "127.0.0.1" env.os_port,
   Event.clientCreated client,
   Event.registered Api.gatewayControl client,
   Event.registered Api.readApi client,
   Event.registered Api.transactionBuilder client,
   Event.registered Api.walletSync client,
   Event.serverStarted]

/-- `start_rpc_gateway` (lines 120–135): bind an HTTP server to
`127.0.0.1:0` (OS-assigned port), construct one gateway client from the
persisted gateway configuration, merge the four API surface implementations
into one module over that client, and start the server. -/
def start_rpc_gateway (env : Env) (fs : List Event) (config_path : FsPath) :
    Except Error (SocketAddr × HttpServerHandle) × List Event :=
  if env.bind_ok then
    let addr : SocketAddr := { host := "127.0.0.1", port := env.os_port }
    match create_client env fs config_path with
    | some client =>
      if env.merge_ok then
        if env.server_start_ok then
          (Except.ok (addr, ()), rpcGatewayTrace env client)
        else (Except.error Error.serverStart,
              [Event.bound "127.0.0.1" env.os_port,
               Event.clientCreated client,
               Event.registered Api.gatewayControl client,
               Event.registered Api.readApi client,
               Event.registered Api.transactionBuilder client,
               Event.registered Api.walletSync client])
      else (Except.error Error.register,
            [Event.bound "127.0.0.1" env.os_port, Event.clientCreated client])
    | none =>
      (Except.error Error.clientConstruction, [Event.bound "127.0.0.1" env.os_port])
  else (Except.error Error.bind, [])

/-- `HttpClient` built by `HttpClientBuilder::default().build(rpc_url)`. -/
structure HttpClient where
  url : String
deriving DecidableEq

/-- `RpcGatewayClient::new(rpc_url)` (the `GatewayClient` stored behind `Arc`). -/
structure RpcGatewayClient where
  url : String
deriving DecidableEq

/-- `struct TestNetwork` (lines 172–179), fields in source declaration order. -/
structure TestNetwork where
  network : Swarm
  _rpc_server : HttpServerHandle
  accounts : List SuiAddress
  http_client : HttpClient
  gateway_client : RpcGatewayClient
  rpc_url : String
deriving DecidableEq

/-- `start_rpc_test_network_with_fullnode` (lines 143–170): run the base
bootstrap, start the RPC gateway in front of it, re-read the persisted wallet
configuration, rewire its gateway reference to `RPC(rpc_url)`, re-persist it,
and construct the two clients. -/
def start_rpc_test_network_with_fullnode (env : Env) (genesis_config : Option GenesisConfig)
    (fullnode_count : Nat) : Except Error TestNetwork × List Event :=
  match start_test_network_with_fullnodes env genesis_config fullnode_count with
  | (Except.error e, tr) => (Except.error e, tr)
  | (Except.ok network, tr) =>
    let working_dir := network.dir
    match start_rpc_gateway env tr (pathJoin working_dir SUI_GATEWAY_CONFIG) with
    | (Except.error e, tr2) => (Except.error e, tr ++ tr2)
    | (Except.ok (server_addr, rpc_server_handle), tr2) =>
      let trA := tr ++ tr2
      if env.read_wallet_ok then
        match lastWalletWrite trA (pathJoin working_dir SUI_CLIENT_CONFIG) with
        | none => (Except.error Error.readWallet, trA)
        | some wallet_conf =>
          let trB := trA ++ [Event.readWalletConf (pathJoin working_dir SUI_CLIENT_CONFIG)]
          let rpc_url := "http://" ++ addrToString server_addr
          let accounts := wallet_conf.accounts
          let wallet_conf2 := { wallet_conf with gateway := GatewayType.RPC rpc_url }
          if env.rewrite_wallet_ok then
            let trC := trB ++
              [Event.rewroteWallet (pathJoin working_dir SUI_CLIENT_CONFIG) wallet_conf2]
            if env.http_client_ok then
              let trD := trC ++ [Event.builtHttpClient rpc_url]
              if env.rpc_client_ok then
                (Except.ok
                  { network := network, _rpc_server := rpc_server_handle,
                    accounts := accounts, http_client := { url := rpc_url },
                    gateway_client := { url := rpc_url }, rpc_url := rpc_url },
                 trD ++ [Event.builtRpcClient rpc_url])
              else (Except.error Error.rpcClient, trD)
            else (Except.error Error.httpClient, trC)
          else (Except.error Error.rewrite, trB)
      else (Except.error Error.readWallet, trA)

/-- `start_rpc_test_network` (lines 137–141). -/
def start_rpc_test_network (env : Env) (genesis_config : Option GenesisConfig) :
    Except Error TestNetwork × List Event :=
  start_rpc_test_network_with_fullnode env genesis_config 0

/-- `WalletContext` as used here: the wallet configuration it loads. -/
structure WalletContext where
  config : SuiClientConfig
deriving DecidableEq

/-- Result of a run that may also panic (Rust `unwrap`), distinguishing a panic
from a returned error value. -/
inductive Outcome (α : Type) where
  | ok (a : α)
  | err (e : Error)
  | panicked
deriving DecidableEq

/-- `setup_network_and_wallet` (lines 102–118): start the network with the
default genesis, load the wallet context from the persisted wallet config,
take the first account (`unwrap` — a panic when there is none), and sync it. -/
def setup_network_and_wallet (env : Env) :
    Outcome (Swarm × WalletContext × SuiAddress) × List Event :=
  match start_test_network env none with
  | (Except.error e, tr) => (Outcome.err e, tr)
  | (Except.ok swarm, tr) =>
    let wallet_conf_path := pathJoin swarm.dir SUI_CLIENT_CONFIG
    if env.new_context_ok then
      match lastWalletWrite tr wallet_conf_path with
      | none => (Outcome.err Error.newContext, tr)
      | some conf =>
        let context : WalletContext := { config := conf }
        let tr2 := tr ++ [Event.contextCreated wallet_conf_path]
        match context.config.accounts.head? with
        | none => (Outcome.panicked, tr2)
        | some address =>
          if env.sync_ok then
            (Outcome.ok (swarm, context, address), tr2 ++ [Event.syncedClient (some address)])
          else (Outcome.err Error.sync, tr2)
    else (Outcome.err Error.newContext, tr)

/-- Field declaration order of `struct TestNetwork` (lines 172–179). -/
def testNetworkFieldOrder : List String :=
  ["network", "_rpc_server", "accounts", "http_client", "gateway_client", "rpc_url"]

/-- Rust drops struct fields in declaration order (RFC 1857), so the
destruction order of a `TestNetwork` value is its field declaration order. -/
def testNetworkDropOrder : List String := testNetworkFieldOrder

/-- Position of a field in the destruction order. -/
def dropIndex (f : String) : Nat := testNetworkDropOrder.indexOf f

/-- Pipeline position of each API surface within the registration stage,
in the merge order of lines 128–131. -/
def apiStage : Api → Nat
  | Api.gatewayControl => 0
  | Api.readApi => 1
  | Api.transactionBuilder => 2
  | Api.walletSync => 3

/-- Pipeline position of each effect, in program order. -/
def stageOf : Event → Nat
  | Event.launched => 0
  | Event.wroteNetwork _ _ => 1
  | Event.wroteKeystore _ _ => 2
  | Event.wroteGateway _ _ => 3
  | Event.wroteWallet _ _ => 4
  | Event.bound _ _ => 5
  | Event.clientCreated _ => 6
  | Event.registered api _ => 7 + apiStage api
  | Event.serverStarted => 11
  | Event.readWalletConf _ => 12
  | Event.rewroteWallet _ _ => 13
  | Event.builtHttpClient _ => 14
  | Event.builtRpcClient _ => 15
  | Event.contextCreated _ => 16
  | Event.syncedClient _ => 17

/-- Pipeline position of the stage each error comes from. -/
def errorStage : Error → Nat
  | Error.launch => 0
  | Error.persistNetwork => 1
  | Error.persistKeystore => 2
  | Error.persistGateway => 3
  | Error.persistWallet => 4
  | Error.bind => 5
  | Error.clientConstruction => 6
  | Error.register => 7
  | Error.serverStart => 11
  | Error.readWallet => 12
  | Error.rewrite => 13
  | Error.httpClient => 14
  | Error.rpcClient => 15
  | Error.newContext => 16
  | Error.sync => 17

/-- All external steps of the base bootstrap succeed under `env`. -/
def baseAllOk (env : Env) : Bool :=
  env.launch_ok && env.save_network_ok && env.save_keystore_ok &&
    env.save_gateway_ok && env.save_wallet_ok

/-- All external steps of the RPC bootstrap succeed under `env`. -/
def rpcAllOk (env : Env) : Bool :=
  baseAllOk env && env.bind_ok && env.create_client_ok && env.merge_ok &&
    env.server_start_ok && env.read_wallet_ok && env.rewrite_wallet_ok &&
    env.http_client_ok && env.rpc_client_ok

/-- Spec-side description for error propagation: the first failing stage of the
base bootstrap, in pipeline order (the spec's "first error"). -/
def first_failure_base (env : Env) : Option Error :=
  if env.launch_ok = false then some Error.launch
  else if env.save_network_ok = false then some Error.persistNetwork
  else if env.save_keystore_ok = false then some Error.persistKeystore
  else if env.save_gateway_ok = false then some Error.persistGateway
  else if env.save_wallet_ok = false then some Error.persistWallet
  else none

/-- Spec-side description for error propagation: the first failing stage of the
RPC bootstrap, in pipeline order. -/
def first_failure_rpc (env : Env) : Option Error :=
  if env.launch_ok = false then some Error.launch
  else if env.save_network_ok = false then some Error.persistNetwork
  else if env.save_keystore_ok = false then some Error.persistKeystore
  else if env.save_gateway_ok = false then some Error.persistGateway
  else if env.save_wallet_ok = false then some Error.persistWallet
  else if env.bind_ok = false then some Error.bind
  else if env.create_client_ok = false then some Error.clientConstruction
  else if env.merge_ok = false then some Error.register
  else if env.server_start_ok = false then some Error.serverStart
  else if env.read_wallet_ok = false then some Error.readWallet
  else if env.rewrite_wallet_ok = false then some Error.rewrite
  else if env.http_client_ok = false then some Error.httpClient
  else if env.rpc_client_ok = false then some Error.rpcClient
  else none

/-- The socket address the RPC server reports after binding `127.0.0.1:0`:
localhost with the OS-assigned port. -/
def boundAddr (env : Env) : SocketAddr := { host := "127.0.0.1", port := env.os_port }

/-- `format!("http://{}", server_addr)` of line 153. -/
def rpcUrlOf (env : Env) : String := "http://" ++ addrToString (boundAddr env)

/-- The one gateway client `start_rpc_gateway` constructs during the RPC
bootstrap: built from the persisted gateway configuration. -/
def builtClient (env : Env) (gc : Option GenesisConfig) (fc : Nat) : GatewayClientM :=
  { cfg := gatewayConfigOf env gc fc, id := 0 }

/-- The wallet configuration after rewiring (lines 151–158): the bootstrap
wallet configuration with its gateway reference replaced by `RPC(rpc_url)`. -/
def rewiredWalletConfig (env : Env) (gc : Option GenesisConfig) (fc : Nat) :
    SuiClientConfig :=
  { walletConfigOf env gc fc with gateway := GatewayType.RPC (rpcUrlOf env) }

/-- Effect trace of a successful `start_rpc_test_network_with_fullnode` run. -/
def rpcTrace (env : Env) (gc : Option GenesisConfig) (fc : Nat) : List Event :=
  baseTrace env gc fc ++ rpcGatewayTrace env (builtClient env gc fc) ++
    [Event.readWalletConf (pathJoin (builtSwarm env gc fc).dir SUI_CLIENT_CONFIG),
     Event.rewroteWallet (pathJoin (builtSwarm env gc fc).dir SUI_CLIENT_CONFIG)
       (rewiredWalletConfig env gc fc),
     Event.builtHttpClient (rpcUrlOf env),
     Event.builtRpcClient (rpcUrlOf env)]

/-- The handle a successful `start_rpc_test_network_with_fullnode` returns. -/
def builtTestNetwork (env : Env) (gc : Option GenesisConfig) (fc : Nat) : TestNetwork :=
  { network := builtSwarm env gc fc
    _rpc_server := ()
    accounts := (walletConfigOf env gc fc).accounts
    http_client := { url := rpcUrlOf env }
    gateway_client := { url := rpcUrlOf env }
    rpc_url := rpcUrlOf env }

/-- The most recent keystore persisted at `p`. -/
def lastKeystoreWrite (fs : List Event) (p : FsPath) :
    Option (List (SuiAddress × KeyPair)) :=
  fs.reverse.findSome? fun e =>
    match e with
    | Event.wroteKeystore q ks => if q = p then some ks else none
    | _ => none

/-- The gateway clients constructed during a run. -/
def createdClients (tr : List Event) : List GatewayClientM :=
  tr.filterMap fun e =>
    match e with
    | Event.clientCreated c => some c
    | _ => none

/-- The API registrations performed during a run, each with the client the API
surface was registered against. -/
def registrations (tr : List Event) : List (Api × GatewayClientM) :=
  tr.filterMap fun e =>
    match e with
    | Event.registered a c => some (a, c)
    | _ => none

/-- The four bootstrap configuration artifacts, in the order the spec names
them. -/
inductive ArtifactKind where
  | network
  | keystore
  | gateway
  | wallet
deriving DecidableEq

/-- Which bootstrap artifact an event writes, if any. -/
def bootstrapWriteKind : Event → Option ArtifactKind
  | Event.wroteNetwork _ _ => some ArtifactKind.network
  | Event.wroteKeystore _ _ => some ArtifactKind.keystore
  | Event.wroteGateway _ _ => some ArtifactKind.gateway
  | Event.wroteWallet _ _ => some ArtifactKind.wallet
  | _ => none

/-- A concrete environment in which every external step succeeds, used to
exercise the theorems on closed inputs. -/
def envAllOk : Env :=
  { working_dir := ["testdir"]
    default_account_keys := [{ pubkey := 10 }, { pubkey := 11 }]
    os_port := 9123
    launch_ok := true
    save_network_ok := true
    save_keystore_ok := true
    save_gateway_ok := true
    save_wallet_ok := true
    bind_ok := true
    create_client_ok := true
    merge_ok := true
    server_start_ok := true
    read_wallet_ok := true
    rewrite_wallet_ok := true
    http_client_ok := true
    rpc_client_ok := true
    new_context_ok := true
    sync_ok := true }

/-- `envAllOk` with a failing RPC-server bind. -/
def envFailBind : Env := { envAllOk with bind_ok := false }

/-- `envAllOk` with an empty default genesis (no provisioned accounts). -/
def envNoAccounts : Env := { envAllOk with default_account_keys := [] }

theorem builtSwarm_eq (env : Env) (gc : Option GenesisConfig) (fc : Nat) :
    builtSwarm env gc fc =
      { validators := List.range NUM_VALIDAOTR
        fullnodes := List.range fc
        config := { account_keys :=
                      (gc.getD { account_keys := env.default_account_keys }).account_keys
                    validator_set := List.range NUM_VALIDAOTR }
        dir := env.working_dir } := by
  unfold builtSwarm SwarmBuilder.build
  cases gc <;> rfl

theorem base_run_ok (env : Env) (gc : Option GenesisConfig) (fc : Nat)
    (h : baseAllOk env = true) :
    start_test_network_with_fullnodes env gc fc =
      (Except.ok (builtSwarm env gc fc), baseTrace env gc fc) := by
  unfold baseAllOk at h
  simp only [Bool.and_eq_true] at h
  obtain ⟨⟨⟨⟨h1, h2⟩, h3⟩, h4⟩, h5⟩ := h
  unfold start_test_network_with_fullnodes
  simp [h1, h2, h3, h4, h5]

theorem base_ok_inv (env : Env) (gc : Option GenesisConfig) (fc : Nat)
    (sw : Swarm) (tr : List Event)
    (h : start_test_network_with_fullnodes env gc fc = (Except.ok sw, tr)) :
    baseAllOk env = true ∧ sw = builtSwarm env gc fc ∧ tr = baseTrace env gc fc := by
  unfold start_test_network_with_fullnodes at h
  have h1 : env.launch_ok = true := by
    by_contra hx
    rw [Bool.not_eq_true] at hx
    simp [hx] at h
  have h2 : env.save_network_ok = true := by
    by_contra hx
    rw [Bool.not_eq_true] at hx
    simp [h1, hx] at h
  have h3 : env.save_keystore_ok = true := by
    by_contra hx
    rw [Bool.not_eq_true] at hx
    simp [h1, h2, hx] at h
  have h4 : env.save_gateway_ok = true := by
    by_contra hx
    rw [Bool.not_eq_true] at hx
    simp [h1, h2, h3, hx] at h
  have h5 : env.save_wallet_ok = true := by
    by_contra hx
    rw [Bool.not_eq_true] at hx
    simp [h1, h2, h3, h4, hx] at h
  simp [h1, h2, h3, h4, h5] at h
  exact ⟨by simp [baseAllOk, h1, h2, h3, h4, h5], h.1.symm, h.2.symm⟩

theorem lastGatewayWrite_baseTrace (env : Env) (gc : Option GenesisConfig) (fc : Nat) :
    lastGatewayWrite (baseTrace env gc fc)
      (pathJoin (builtSwarm env gc fc).dir SUI_GATEWAY_CONFIG) =
      some (gatewayConfigOf env gc fc) := by
  simp [lastGatewayWrite, baseTrace]

theorem lastWalletWrite_baseTrace (env : Env) (gc : Option GenesisConfig) (fc : Nat) :
    lastWalletWrite (baseTrace env gc fc)
      (pathJoin (builtSwarm env gc fc).dir SUI_CLIENT_CONFIG) =
      some (walletConfigOf env gc fc) := by
  simp [lastWalletWrite, baseTrace]

theorem lastWalletWrite_preRewire (env : Env) (gc : Option GenesisConfig) (fc : Nat)
    (client : GatewayClientM) :
    lastWalletWrite (baseTrace env gc fc ++ rpcGatewayTrace env client)
      (pathJoin (builtSwarm env gc fc).dir SUI_CLIENT_CONFIG) =
      some (walletConfigOf env gc fc) := by
  simp [lastWalletWrite, baseTrace, rpcGatewayTrace]

theorem gateway_run_ok (env : Env) (fs : List Event) (p : FsPath) (g : GatewayConfig)
    (hg : lastGatewayWrite fs p = some g)
    (hb : env.bind_ok = true) (hc : env.create_client_ok = true)
    (hm : env.merge_ok = true) (hs : env.server_start_ok = true) :
    start_rpc_gateway env fs p =
      (Except.ok (boundAddr env, ()), rpcGatewayTrace env { cfg := g, id := 0 }) := by
  unfold start_rpc_gateway create_client
  simp [hb, hc, hm, hs, hg, boundAddr]

theorem gateway_ok_inv (env : Env) (fs : List Event) (p : FsPath)
    (res : SocketAddr × HttpServerHandle) (tr : List Event)
    (h : start_rpc_gateway env fs p = (Except.ok res, tr)) :
    env.bind_ok = true ∧ env.create_client_ok = true ∧ env.merge_ok = true ∧
      env.server_start_ok = true ∧
      ∃ g, lastGatewayWrite fs p = some g ∧ res = (boundAddr env, ()) ∧
        tr = rpcGatewayTrace env { cfg := g, id := 0 } := by
  unfold start_rpc_gateway create_client at h
  have hb : env.bind_ok = true := by
    by_contra hx
    rw [Bool.not_eq_true] at hx
    simp [hx] at h
  have hc : env.create_client_ok = true := by
    by_contra hx
    rw [Bool.not_eq_true] at hx
    simp [hb, hx] at h
  rw [hb, hc] at h
  simp only [if_true] at h
  rcases hg : lastGatewayWrite fs p with _ | g
  · rw [hg] at h
    simp at h
  · rw [hg] at h
    have hm : env.merge_ok = true := by
      by_contra hx
      rw [Bool.not_eq_true] at hx
      simp [hx] at h
    have hs : env.server_start_ok = true := by
      by_contra hx
      rw [Bool.not_eq_true] at hx
      simp [hm, hx] at h
    simp [hm, hs] at h
    exact ⟨hb, hc, hm, hs, g, rfl, h.1.symm, h.2.symm⟩

theorem first_failure_rpc_of_base (env : Env) (e : Error)
    (h : first_failure_base env = some e) : first_failure_rpc env = some e := by
  unfold first_failure_base at h
  unfold first_failure_rpc
  by_cases h1 : env.launch_ok = false
  · simp [h1] at h ⊢
    exact h
  · by_cases h2 : env.save_network_ok = false
    · simp [h1, h2] at h ⊢
      exact h
    · by_cases h3 : env.save_keystore_ok = false
      · simp [h1, h2, h3] at h ⊢
        exact h
      · by_cases h4 : env.save_gateway_ok = false
        · simp [h1, h2, h3, h4] at h ⊢
          exact h
        · by_cases h5 : env.save_wallet_ok = false
          · simp [h1, h2, h3, h4, h5] at h ⊢
            exact h
          · simp [h1, h2, h3, h4, h5] at h

theorem base_err_inv (env : Env) (gc : Option GenesisConfig) (fc : Nat)
    (e : Error) (tr : List Event)
    (h : start_test_network_with_fullnodes env gc fc = (Except.error e, tr)) :
    first_failure_base env = some e ∧ (∀ ev ∈ tr, stageOf ev < errorStage e) ∧
      (tr.map stageOf).Pairwise (· < ·) := by
  unfold start_test_network_with_fullnodes at h
  by_cases h1 : env.launch_ok = true
  case neg =>
    rw [Bool.not_eq_true] at h1
    simp [h1] at h
    obtain ⟨rfl, rfl⟩ := h
    exact ⟨by simp [first_failure_base, h1], by simp, by simp⟩
  by_cases h2 : env.save_network_ok = true
  case neg =>
    rw [Bool.not_eq_true] at h2
    simp [h1, h2] at h
    obtain ⟨rfl, rfl⟩ := h
    refine ⟨by simp [first_failure_base, h1, h2], ?_, ?_⟩
    · simp [List.forall_mem_cons, stageOf, errorStage]
    · simp [stageOf]
  by_cases h3 : env.save_keystore_ok = true
  case neg =>
    rw [Bool.not_eq_true] at h3
    simp [h1, h2, h3] at h
    obtain ⟨rfl, rfl⟩ := h
    refine ⟨by simp [first_failure_base, h1, h2, h3], ?_, ?_⟩
    · simp [List.forall_mem_cons, stageOf, errorStage]
    · simp [stageOf]
  by_cases h4 : env.save_gateway_ok = true
  case neg =>
    rw [Bool.not_eq_true] at h4
    simp [h1, h2, h3, h4] at h
    obtain ⟨rfl, rfl⟩ := h
    refine ⟨by simp [first_failure_base, h1, h2, h3, h4], ?_, ?_⟩
    · simp [List.forall_mem_cons, stageOf, errorStage]
    · simp [stageOf]
  by_cases h5 : env.save_wallet_ok = true
  case neg =>
    rw [Bool.not_eq_true] at h5
    simp [h1, h2, h3, h4, h5] at h
    obtain ⟨rfl, rfl⟩ := h
    refine ⟨by simp [first_failure_base, h1, h2, h3, h4, h5], ?_, ?_⟩
    · simp [List.forall_mem_cons, stageOf, errorStage]
    · simp [stageOf]
  simp [h1, h2, h3, h4, h5] at h

theorem gateway_err_inv (env : Env) (fs : List Event) (p : FsPath)
    (e : Error) (tr2 : List Event)
    (h : start_rpc_gateway env fs p = (Except.error e, tr2)) :
    (e = Error.bind ∧ env.bind_ok = false ∧ tr2 = []) ∨
    (e = Error.clientConstruction ∧ env.bind_ok = true ∧
      create_client env fs p = none ∧ tr2 = [Event.bound "127.0.0.1" env.os_port]) ∨
    (∃ client, create_client env fs p = some client ∧ env.bind_ok = true ∧
      ((e = Error.register ∧ env.merge_ok = false ∧
        tr2 = [Event.bound "127.0.0.1" env.os_port, Event.clientCreated client]) ∨
       (e = Error.serverStart ∧ env.merge_ok = true ∧ env.server_start_ok = false ∧
        tr2 = [Event.bound "127.0.0.1" env.os_port,
               Event.clientCreated client,
               Event.registered Api.gatewayControl client,
               Event.registered Api.readApi client,
               Event.registered Api.transactionBuilder client,
               Event.registered Api.walletSync client]))) := by
  unfold start_rpc_gateway at h
  by_cases hb : env.bind_ok = true
  case neg =>
    rw [Bool.not_eq_true] at hb
    simp [hb] at h
    obtain ⟨rfl, rfl⟩ := h
    exact Or.inl ⟨rfl, hb, rfl⟩
  rcases hcc : create_client env fs p with _ | client
  · rw [hb] at h
    simp only [if_true] at h
    rw [hcc] at h
    simp at h
    obtain ⟨rfl, rfl⟩ := h
    exact Or.inr (Or.inl ⟨rfl, hb, rfl, rfl⟩)
  · rw [hb] at h
    simp only [if_true] at h
    rw [hcc] at h
    by_cases hm : env.merge_ok = true
    case neg =>
      rw [Bool.not_eq_true] at hm
      simp [hm] at h
      obtain ⟨rfl, rfl⟩ := h
      exact Or.inr (Or.inr ⟨client, rfl, hb, Or.inl ⟨rfl, hm, rfl⟩⟩)
    by_cases hs : env.server_start_ok = true
    case neg =>
      rw [Bool.not_eq_true] at hs
      simp [hm, hs] at h
      obtain ⟨rfl, rfl⟩ := h
      exact Or.inr (Or.inr ⟨client, rfl, hb, Or.inr ⟨rfl, hm, hs, rfl⟩⟩)
    simp [hm, hs] at h

theorem first_failure_rpc_eq_tail (env : Env) (hall : baseAllOk env = true) :
    first_failure_rpc env =
      (if env.bind_ok = false then some Error.bind
       else if env.create_client_ok = false then some Error.clientConstruction
       else if env.merge_ok = false then some Error.register
       else if env.server_start_ok = false then some Error.serverStart
       else if env.read_wallet_ok = false then some Error.readWallet
       else if env.rewrite_wallet_ok = false then some Error.rewrite
       else if env.http_client_ok = false then some Error.httpClient
       else if env.rpc_client_ok = false then some Error.rpcClient
       else none) := by
  unfold baseAllOk at hall
  simp only [Bool.and_eq_true] at hall
  obtain ⟨⟨⟨⟨h1, h2⟩, h3⟩, h4⟩, h5⟩ := hall
  unfold first_failure_rpc
  simp [h1, h2, h3, h4, h5]

theorem create_client_ok_of_some (env : Env) (fs : List Event) (p : FsPath)
    (c : GatewayClientM) (h : create_client env fs p = some c) :
    env.create_client_ok = true := by
  by_contra hx
  rw [Bool.not_eq_true] at hx
  simp [create_client, hx] at h

theorem rpc_err_inv (env : Env) (gc : Option GenesisConfig) (fc : Nat)
    (e : Error) (tr : List Event)
    (h : start_rpc_test_network_with_fullnode env gc fc = (Except.error e, tr)) :
    first_failure_rpc env = some e ∧ (∀ ev ∈ tr, stageOf ev < errorStage e) ∧
      (tr.map stageOf).Pairwise (· < ·) := by
  unfold start_rpc_test_network_with_fullnode at h
  rcases hbase : start_test_network_with_fullnodes env gc fc with ⟨res, tr0⟩
  rw [hbase] at h
  cases res with
  | error e0 =>
    dsimp only at h
    simp only [Prod.mk.injEq] at h
    obtain ⟨he, rfl⟩ := h
    injection he with he
    subst he
    obtain ⟨hff, hst, hpw⟩ := base_err_inv env gc fc e0 tr0 hbase
    exact ⟨first_failure_rpc_of_base env e0 hff, hst, hpw⟩
  | ok sw =>
    obtain ⟨hall, hsw, htr0⟩ := base_ok_inv env gc fc sw tr0 hbase
    subst hsw
    subst htr0
    dsimp only at h
    have hff := first_failure_rpc_eq_tail env hall
    rcases hgw : start_rpc_gateway env (baseTrace env gc fc)
        (pathJoin (builtSwarm env gc fc).dir SUI_GATEWAY_CONFIG) with ⟨gres, tr2⟩
    rw [hgw] at h
    cases gres with
    | error e2 =>
      dsimp only at h
      simp only [Prod.mk.injEq] at h
      obtain ⟨he, rfl⟩ := h
      injection he with he
      subst he
      rcases gateway_err_inv env _ _ e2 tr2 hgw with
        ⟨rfl, hbf, rfl⟩ | ⟨rfl, hb, hcc, rfl⟩ | ⟨client, hcc, hb, hrest⟩
      · refine ⟨by rw [hff]; simp [hbf], ?_, ?_⟩
        · simp [baseTrace, List.forall_mem_cons, stageOf, errorStage]
        · simp [baseTrace, stageOf]
      · have hcf : env.create_client_ok = false := by
          by_contra hx
          rw [Bool.not_eq_false] at hx
          unfold create_client at hcc
          rw [hx] at hcc
          simp [lastGatewayWrite_baseTrace env gc fc] at hcc
        refine ⟨by rw [hff]; simp [hb, hcf], ?_, ?_⟩
        · simp [baseTrace, List.forall_mem_cons, List.forall_mem_append,
            stageOf, errorStage]
        · simp [baseTrace, stageOf]
      · have hct := create_client_ok_of_some env _ _ client hcc
        rcases hrest with ⟨rfl, hm, rfl⟩ | ⟨rfl, hm, hs, rfl⟩
        · refine ⟨by rw [hff]; simp [hb, hct, hm], ?_, ?_⟩
          · simp [baseTrace, List.forall_mem_cons, List.forall_mem_append,
              stageOf, errorStage]
          · simp [baseTrace, stageOf]
        · refine ⟨by rw [hff]; simp [hb, hct, hm, hs], ?_, ?_⟩
          · simp [baseTrace, List.forall_mem_cons, List.forall_mem_append,
              stageOf, errorStage, apiStage]
          · simp [baseTrace, stageOf, apiStage]
    | ok addrHandle =>
      obtain ⟨hb, hct, hm, hs, g, hg, haddr, htr2⟩ :=
        gateway_ok_inv env (baseTrace env gc fc)
          (pathJoin (builtSwarm env gc fc).dir SUI_GATEWAY_CONFIG) addrHandle tr2 hgw
      rw [lastGatewayWrite_baseTrace env gc fc] at hg
      injection hg with hg
      subst hg
      subst haddr
      subst htr2
      dsimp only at h
      by_cases hr : env.read_wallet_ok = true
      case neg =>
        rw [Bool.not_eq_true] at hr
        simp only [hr, Bool.false_eq_true, if_false, Prod.mk.injEq] at h
        obtain ⟨he, rfl⟩ := h
        injection he with he
        subst he
        refine ⟨by rw [hff]; simp [hb, hct, hm, hs, hr], ?_, ?_⟩
        · simp [baseTrace, rpcGatewayTrace, List.forall_mem_cons, List.forall_mem_append,
            stageOf, errorStage, apiStage]
        · simp [baseTrace, rpcGatewayTrace, stageOf, apiStage]
      rw [hr] at h
      simp only [if_true] at h
      rw [lastWalletWrite_preRewire env gc fc] at h
      dsimp only at h
      by_cases hw : env.rewrite_wallet_ok = true
      case neg =>
        rw [Bool.not_eq_true] at hw
        simp only [hw, Bool.false_eq_true, if_false, Prod.mk.injEq] at h
        obtain ⟨he, rfl⟩ := h
        injection he with he
        subst he
        refine ⟨by rw [hff]; simp [hb, hct, hm, hs, hr, hw], ?_, ?_⟩
        · simp [baseTrace, rpcGatewayTrace, List.forall_mem_cons, List.forall_mem_append,
            stageOf, errorStage, apiStage]
        · simp [baseTrace, rpcGatewayTrace, stageOf, apiStage]
      rw [hw] at h
      simp only [if_true] at h
      by_cases hh : env.http_client_ok = true
      case neg =>
        rw [Bool.not_eq_true] at hh
        simp only [hh, Bool.false_eq_true, if_false, Prod.mk.injEq] at h
        obtain ⟨he, rfl⟩ := h
        injection he with he
        subst he
        refine ⟨by rw [hff]; simp [hb, hct, hm, hs, hr, hw, hh], ?_, ?_⟩
        · simp [baseTrace, rpcGatewayTrace, List.forall_mem_cons, List.forall_mem_append,
            stageOf, errorStage, apiStage]
        · simp [baseTrace, rpcGatewayTrace, stageOf, apiStage]
      rw [hh] at h
      simp only [if_true] at h
      by_cases hp : env.rpc_client_ok = true
      case neg =>
        rw [Bool.not_eq_true] at hp
        simp only [hp, Bool.false_eq_true, if_false, Prod.mk.injEq] at h
        obtain ⟨he, rfl⟩ := h
        injection he with he
        subst he
        refine ⟨by rw [hff]; simp [hb, hct, hm, hs, hr, hw, hh, hp], ?_, ?_⟩
        · simp [baseTrace, rpcGatewayTrace, List.forall_mem_cons, List.forall_mem_append,
            stageOf, errorStage, apiStage]
        · simp [baseTrace, rpcGatewayTrace, stageOf, apiStage]
      rw [hp] at h
      simp at h

theorem rpc_run_ok (env : Env) (gc : Option GenesisConfig) (fc : Nat)
    (h : rpcAllOk env = true) :
    start_rpc_test_network_with_fullnode env gc fc =
      (Except.ok (builtTestNetwork env gc fc), rpcTrace env gc fc) := by
  unfold rpcAllOk at h
  simp only [Bool.and_eq_true] at h
  obtain ⟨⟨⟨⟨⟨⟨⟨⟨hbase, hb⟩, hc⟩, hm⟩, hs⟩, hr⟩, hw⟩, hh⟩, hp⟩ := h
  unfold start_rpc_test_network_with_fullnode
  rw [base_run_ok env gc fc hbase]
  dsimp only
  rw [gateway_run_ok env (baseTrace env gc fc)
    (pathJoin (builtSwarm env gc fc).dir SUI_GATEWAY_CONFIG)
    (gatewayConfigOf env gc fc) (lastGatewayWrite_baseTrace env gc fc) hb hc hm hs]
  simp only [lastWalletWrite_preRewire env gc fc]
  simp [hr, hw, hh, hp, builtTestNetwork, rpcTrace, builtClient, rewiredWalletConfig,
    rpcUrlOf, boundAddr]

theorem rpc_ok_inv (env : Env) (gc : Option GenesisConfig) (fc : Nat)
    (tn : TestNetwork) (tr : List Event)
    (h : start_rpc_test_network_with_fullnode env gc fc = (Except.ok tn, tr)) :
    rpcAllOk env = true ∧ tn = builtTestNetwork env gc fc ∧ tr = rpcTrace env gc fc := by
  unfold start_rpc_test_network_with_fullnode at h
  rcases hbase : start_test_network_with_fullnodes env gc fc with ⟨res, tr0⟩
  rw [hbase] at h
  cases res with
  | error e => simp at h
  | ok sw =>
    obtain ⟨hall, hsw, htr0⟩ := base_ok_inv env gc fc sw tr0 hbase
    subst hsw
    subst htr0
    dsimp only at h
    rcases hgw : start_rpc_gateway env (baseTrace env gc fc)
        (pathJoin (builtSwarm env gc fc).dir SUI_GATEWAY_CONFIG) with ⟨gres, tr2⟩
    rw [hgw] at h
    cases gres with
    | error e => simp at h
    | ok addrHandle =>
      obtain ⟨hb, hc, hm, hs, g, hg, haddr, htr2⟩ :=
        gateway_ok_inv env (baseTrace env gc fc)
          (pathJoin (builtSwarm env gc fc).dir SUI_GATEWAY_CONFIG) addrHandle tr2 hgw
      rw [lastGatewayWrite_baseTrace env gc fc] at hg
      injection hg with hg
      subst hg
      subst haddr
      subst htr2
      have hr : env.read_wallet_ok = true := by
        by_contra hx
        rw [Bool.not_eq_true] at hx
        simp [hx] at h
      rw [hr] at h
      simp only [if_true] at h
      rw [lastWalletWrite_preRewire env gc fc] at h
      have hw : env.rewrite_wallet_ok = true := by
        by_contra hx
        rw [Bool.not_eq_true] at hx
        simp [hx] at h
      have hh : env.http_client_ok = true := by
        by_contra hx
        rw [Bool.not_eq_true] at hx
        simp [hw, hx] at h
      have hp : env.rpc_client_ok = true := by
        by_contra hx
        rw [Bool.not_eq_true] at hx
        simp [hw, hh, hx] at h
      simp only [hw, hh, hp, if_true] at h
      refine ⟨by simp [rpcAllOk, hall, hb, hc, hm, hs, hr, hw, hh, hp], ?_, ?_⟩
      · have := (Prod.mk.injEq _ _ _ _).mp h
        injection this.1 with htn
        rw [← htn]
        simp [builtTestNetwork, builtClient, rpcUrlOf, boundAddr]
      · have := (Prod.mk.injEq _ _ _ _).mp h
        rw [← this.2]
        simp [rpcTrace, builtClient, rewiredWalletConfig, rpcUrlOf, boundAddr]

theorem base_trace_pairwise (env : Env) (gc : Option GenesisConfig) (fc : Nat) :
    ((start_test_network_with_fullnodes env gc fc).2.map stageOf).Pairwise (· < ·) := by
  rcases hres : start_test_network_with_fullnodes env gc fc with ⟨res, tr⟩
  dsimp only
  cases res with
  | error e => exact (base_err_inv env gc fc e tr hres).2.2
  | ok sw =>
    obtain ⟨-, -, htr⟩ := base_ok_inv env gc fc sw tr hres
    subst htr
    simp [baseTrace, stageOf]

theorem rpc_trace_pairwise (env : Env) (gc : Option GenesisConfig) (fc : Nat) :
    ((start_rpc_test_network_with_fullnode env gc fc).2.map stageOf).Pairwise (· < ·) := by
  rcases hres : start_rpc_test_network_with_fullnode env gc fc with ⟨res, tr⟩
  dsimp only
  cases res with
  | error e => exact (rpc_err_inv env gc fc e tr hres).2.2
  | ok tn =>
    obtain ⟨-, -, htr⟩ := rpc_ok_inv env gc fc tn tr hres
    subst htr
    simp [rpcTrace, baseTrace, rpcGatewayTrace, stageOf, apiStage]

theorem setup_ok_inv (env : Env) (sw : Swarm) (ctx : WalletContext) (addr : SuiAddress)
    (tr : List Event)
    (h : setup_network_and_wallet env = (Outcome.ok (sw, ctx, addr), tr)) :
    ctx.config = walletConfigOf env none 0 ∧ ctx.config.accounts.head? = some addr ∧
      ctx.config.accounts ≠ [] := by
  unfold setup_network_and_wallet at h
  rcases hbase : start_test_network env none with ⟨res, tr0⟩
  rw [hbase] at h
  cases res with
  | error e => simp at h
  | ok swarm =>
    unfold start_test_network at hbase
    obtain ⟨hall, hsw, htr0⟩ := base_ok_inv env none 0 swarm tr0 hbase
    subst hsw
    subst htr0
    dsimp only at h
    by_cases hn : env.new_context_ok = true
    case neg =>
      rw [Bool.not_eq_true] at hn
      simp [hn] at h
    rw [hn] at h
    simp only [if_true] at h
    rw [lastWalletWrite_baseTrace env none 0] at h
    dsimp only at h
    rcases hhd : (walletConfigOf env none 0).accounts.head? with _ | a
    · rw [hhd] at h
      simp at h
    · rw [hhd] at h
      by_cases hs : env.sync_ok = true
      case neg =>
        rw [Bool.not_eq_true] at hs
        simp [hs] at h
      rw [hs] at h
      simp only [if_true, Prod.mk.injEq, Outcome.ok.injEq] at h
      obtain ⟨⟨rfl, rfl, rfl⟩, -⟩ := h
      refine ⟨rfl, hhd, ?_⟩
      intro hemp
      rw [hemp] at hhd
      simp at hhd

theorem setup_panicked (env : Env) (hall : baseAllOk env = true)
    (hn : env.new_context_ok = true) (hempty : env.default_account_keys = []) :
    (setup_network_and_wallet env).1 = Outcome.panicked := by
  unfold setup_network_and_wallet start_test_network
  rw [base_run_ok env none 0 hall]
  dsimp only
  rw [hn]
  simp only [if_true]
  rw [lastWalletWrite_baseTrace env none 0]
  dsimp only
  have hacc : (walletConfigOf env none 0).accounts = [] := by
    simp [walletConfigOf, accountsOf, builtSwarm_eq, hempty]
  rw [hacc]
  rfl

theorem lastKeystoreWrite_baseTrace (env : Env) (gc : Option GenesisConfig) (fc : Nat) :
    lastKeystoreWrite (baseTrace env gc fc)
      (pathJoin (builtSwarm env gc fc).dir SUI_KEYSTORE_FILENAME) =
      some (keystoreOf env gc fc) := by
  simp [lastKeystoreWrite, baseTrace]

theorem lastWalletWrite_rpcTrace (env : Env) (gc : Option GenesisConfig) (fc : Nat) :
    lastWalletWrite (rpcTrace env gc fc)
      (pathJoin (builtSwarm env gc fc).dir SUI_CLIENT_CONFIG) =
      some (rewiredWalletConfig env gc fc) := by
  simp [lastWalletWrite, rpcTrace, baseTrace, rpcGatewayTrace]

/-- C1: for every optional genesis spec and fullnode count, a successful
`start_test_network_with_fullnodes` call returns a swarm whose validator count
equals the committee size `NUM_VALIDAOTR` (which is ≥ 1) and whose total node
count equals committee size + fullnode count; and for every committee size
≥ 1 the built swarm likewise has that many validators and committee size +
fullnode count nodes in total. -/
theorem C1_swarm_node_counts (env : Env) (gc : Option GenesisConfig) (fc : Nat)
    (sw : Swarm) (tr : List Event)
    (h : start_test_network_with_fullnodes env gc fc = (Except.ok sw, tr)) :
    sw.validators.length = NUM_VALIDAOTR ∧
    sw.validators.length + sw.fullnodes.length = NUM_VALIDAOTR + fc ∧
    1 ≤ NUM_VALIDAOTR ∧
    (∀ c fcnt g, 1 ≤ c →
      ((SwarmBuilder.mk c fcnt g).build env).validators.length = c ∧
      ((SwarmBuilder.mk c fcnt g).build env).validators.length +
        ((SwarmBuilder.mk c fcnt g).build env).fullnodes.length = c + fcnt) := by
  obtain ⟨-, hsw, -⟩ := base_ok_inv env gc fc sw tr h
  subst hsw
  rw [builtSwarm_eq]
  refine ⟨by simp, by simp, by norm_num [NUM_VALIDAOTR], ?_⟩
  intro c fcnt g _
  simp [SwarmBuilder.build]

/-- C1 witness: a concrete successful run with two fullnodes. -/
theorem C1_swarm_node_counts_witness :
    (builtSwarm envAllOk none 2).validators.length = NUM_VALIDAOTR ∧
    (builtSwarm envAllOk none 2).validators.length +
      (builtSwarm envAllOk none 2).fullnodes.length = NUM_VALIDAOTR + 2 ∧
    1 ≤ NUM_VALIDAOTR ∧
    (∀ c fcnt g, 1 ≤ c →
      ((SwarmBuilder.mk c fcnt g).build envAllOk).validators.length = c ∧
      ((SwarmBuilder.mk c fcnt g).build envAllOk).validators.length +
        ((SwarmBuilder.mk c fcnt g).build envAllOk).fullnodes.length = c + fcnt) :=
  C1_swarm_node_counts envAllOk none 2 (builtSwarm envAllOk none 2)
    (baseTrace envAllOk none 2) (by rfl)

/-- C2: the claim says a `TestNetwork`'s destruction releases the RPC server
before the swarm; in the source `network : Swarm` is declared before
`_rpc_server : HttpServerHandle`, and Rust drops struct fields in declaration
order, so the swarm is released strictly before the RPC server handle. -/
theorem C2_swarm_dropped_before_rpc_server :
    dropIndex "network" < dropIndex "_rpc_server" ∧
    testNetworkDropOrder = testNetworkFieldOrder := by
  decide

/-- C3: after a successful RPC bootstrap, the persisted wallet configuration is
the pre-rewiring one with its gateway reference replaced by `RPC(url)`, where
`url` is the HTTP URL of the bound server address; accounts and active address
are exactly the pre-rewiring persisted values. -/
theorem C3_rewire_gateway_frame (env : Env) (gc : Option GenesisConfig) (fc : Nat)
    (tn : TestNetwork) (tr : List Event)
    (h : start_rpc_test_network_with_fullnode env gc fc = (Except.ok tn, tr)) :
    lastWalletWrite tr (pathJoin (builtSwarm env gc fc).dir SUI_CLIENT_CONFIG) =
      some (rewiredWalletConfig env gc fc) ∧
    (rewiredWalletConfig env gc fc).gateway =
      GatewayType.RPC ("http://" ++ addrToString (boundAddr env)) ∧
    (rewiredWalletConfig env gc fc).accounts = (walletConfigOf env gc fc).accounts ∧
    (rewiredWalletConfig env gc fc).active_address =
      (walletConfigOf env gc fc).active_address ∧
    lastWalletWrite (baseTrace env gc fc)
      (pathJoin (builtSwarm env gc fc).dir SUI_CLIENT_CONFIG) =
      some (walletConfigOf env gc fc) ∧
    tn.rpc_url = "http://" ++ addrToString (boundAddr env) := by
  obtain ⟨-, htn, htr⟩ := rpc_ok_inv env gc fc tn tr h
  subst htn
  subst htr
  exact ⟨lastWalletWrite_rpcTrace env gc fc, rfl, rfl, rfl,
    lastWalletWrite_baseTrace env gc fc, rfl⟩

/-- C3 witness: the concrete all-success run. -/
theorem C3_rewire_gateway_frame_witness :
    lastWalletWrite (rpcTrace envAllOk none 0)
      (pathJoin (builtSwarm envAllOk none 0).dir SUI_CLIENT_CONFIG) =
      some (rewiredWalletConfig envAllOk none 0) ∧
    (rewiredWalletConfig envAllOk none 0).gateway =
      GatewayType.RPC ("http://" ++ addrToString (boundAddr envAllOk)) ∧
    (rewiredWalletConfig envAllOk none 0).accounts =
      (walletConfigOf envAllOk none 0).accounts ∧
    (rewiredWalletConfig envAllOk none 0).active_address =
      (walletConfigOf envAllOk none 0).active_address ∧
    lastWalletWrite (baseTrace envAllOk none 0)
      (pathJoin (builtSwarm envAllOk none 0).dir SUI_CLIENT_CONFIG) =
      some (walletConfigOf envAllOk none 0) ∧
    (builtTestNetwork envAllOk none 0).rpc_url =
      "http://" ++ addrToString (boundAddr envAllOk) :=
  C3_rewire_gateway_frame envAllOk none 0 (builtTestNetwork envAllOk none 0)
    (rpcTrace envAllOk none 0) (by rfl)

/-- C4: the keystore persisted by the bootstrap has exactly one entry per
provisioned account, in order, and each entry's address is the address derived
from that account key's public key. -/
theorem C4_keystore_matches_accounts (env : Env) (gc : Option GenesisConfig) (fc : Nat)
    (sw : Swarm) (tr : List Event)
    (h : start_test_network_with_fullnodes env gc fc = (Except.ok sw, tr)) :
    lastKeystoreWrite tr (pathJoin sw.dir SUI_KEYSTORE_FILENAME) =
      some (keystoreOf env gc fc) ∧
    (keystoreOf env gc fc).length = (accountsOf env gc fc).length ∧
    (keystoreOf env gc fc).map Prod.fst = accountsOf env gc fc ∧
    (∀ entry ∈ keystoreOf env gc fc, entry.1 = addressOfPublic entry.2.pubkey) := by
  obtain ⟨-, hsw, htr⟩ := base_ok_inv env gc fc sw tr h
  subst hsw
  subst htr
  refine ⟨lastKeystoreWrite_baseTrace env gc fc, ?_, ?_, ?_⟩
  · simp [keystoreOf, accountsOf]
  · simp only [keystoreOf, accountsOf, List.map_map]
    rfl
  · intro entry hentry
    simp [keystoreOf] at hentry
    obtain ⟨k, -, rfl⟩ := hentry
    rfl

/-- C4 witness: a concrete successful run with one fullnode. -/
theorem C4_keystore_matches_accounts_witness :
    lastKeystoreWrite (baseTrace envAllOk none 1)
      (pathJoin (builtSwarm envAllOk none 1).dir SUI_KEYSTORE_FILENAME) =
      some (keystoreOf envAllOk none 1) ∧
    (keystoreOf envAllOk none 1).length = (accountsOf envAllOk none 1).length ∧
    (keystoreOf envAllOk none 1).map Prod.fst = accountsOf envAllOk none 1 ∧
    (∀ entry ∈ keystoreOf envAllOk none 1, entry.1 = addressOfPublic entry.2.pubkey) :=
  C4_keystore_matches_accounts envAllOk none 1 (builtSwarm envAllOk none 1)
    (baseTrace envAllOk none 1) (by rfl)

/-- C5: the bootstrap wallet configuration's gateway reference is Embedded, its
storage path is the working directory's `client_db` (distinct from every node's
own storage path), and its active address is the first provisioned account, or
unset when no account exists. -/
theorem C5_wallet_embedded_active (env : Env) (gc : Option GenesisConfig) (fc : Nat)
    (sw : Swarm) (tr : List Event)
    (h : start_test_network_with_fullnodes env gc fc = (Except.ok sw, tr)) :
    (walletConfigOf env gc fc).gateway =
      GatewayType.Embedded (gatewayConfigOf env gc fc) ∧
    (gatewayConfigOf env gc fc).db_folder_path = pathJoin sw.dir "client_db" ∧
    (∀ p ∈ sw.node_storage_paths, (gatewayConfigOf env gc fc).db_folder_path ≠ p) ∧
    (walletConfigOf env gc fc).active_address = (accountsOf env gc fc).head? ∧
    (accountsOf env gc fc = [] → (walletConfigOf env gc fc).active_address = none) ∧
    (∀ a rest, accountsOf env gc fc = a :: rest →
      (walletConfigOf env gc fc).active_address = some a) ∧
    lastWalletWrite tr (pathJoin sw.dir SUI_CLIENT_CONFIG) =
      some (walletConfigOf env gc fc) := by
  obtain ⟨-, hsw, htr⟩ := base_ok_inv env gc fc sw tr h
  subst hsw
  subst htr
  refine ⟨rfl, rfl, ?_, rfl, ?_, ?_, lastWalletWrite_baseTrace env gc fc⟩
  · intro p hp heq
    rw [Swarm.node_storage_paths] at hp
    simp only [List.mem_append, List.mem_map] at hp
    rcases hp with ⟨i, -, hpe⟩ | ⟨i, -, hpe⟩
    · rw [← hpe, validator_db_path] at heq
      have hlen := congrArg List.length heq
      simp [gatewayConfigOf, pathJoin] at hlen
    · rw [← hpe, fullnode_db_path] at heq
      have hlen := congrArg List.length heq
      simp [gatewayConfigOf, pathJoin] at hlen
  · intro hemp
    simp [walletConfigOf, hemp]
  · intro a rest hacc
    simp [walletConfigOf, hacc]

/-- C5 witness: a concrete successful run with one fullnode. -/
theorem C5_wallet_embedded_active_witness :
    (walletConfigOf envAllOk none 1).gateway =
      GatewayType.Embedded (gatewayConfigOf envAllOk none 1) ∧
    (gatewayConfigOf envAllOk none 1).db_folder_path =
      pathJoin (builtSwarm envAllOk none 1).dir "client_db" ∧
    (∀ p ∈ (builtSwarm envAllOk none 1).node_storage_paths,
      (gatewayConfigOf envAllOk none 1).db_folder_path ≠ p) ∧
    (walletConfigOf envAllOk none 1).active_address =
      (accountsOf envAllOk none 1).head? ∧
    (accountsOf envAllOk none 1 = [] →
      (walletConfigOf envAllOk none 1).active_address = none) ∧
    (∀ a rest, accountsOf envAllOk none 1 = a :: rest →
      (walletConfigOf envAllOk none 1).active_address = some a) ∧
    lastWalletWrite (baseTrace envAllOk none 1)
      (pathJoin (builtSwarm envAllOk none 1).dir SUI_CLIENT_CONFIG) =
      some (walletConfigOf envAllOk none 1) :=
  C5_wallet_embedded_active envAllOk none 1 (builtSwarm envAllOk none 1)
    (baseTrace envAllOk none 1) (by rfl)

/-- C6: `start_rpc_gateway` builds exactly one gateway client, from the gateway
configuration persisted at the given path, binds the server to 127.0.0.1 with
the OS-assigned port (the literal bind request asks for port 0), and registers
the four API surfaces, in order, against that same single client. -/
theorem C6_single_client_four_apis (env : Env) (fs : List Event) (p : FsPath)
    (g : GatewayConfig) (addr : SocketAddr) (handle : HttpServerHandle)
    (tr : List Event)
    (h : start_rpc_gateway env fs p = (Except.ok (addr, handle), tr))
    (hg : lastGatewayWrite fs p = some g) :
    createdClients tr = [{ cfg := g, id := 0 }] ∧
    registrations tr =
      [(Api.gatewayControl, { cfg := g, id := 0 }),
       (Api.readApi, { cfg := g, id := 0 }),
       (Api.transactionBuilder, { cfg := g, id := 0 }),
       (Api.walletSync, { cfg := g, id := 0 })] ∧
    addr = boundAddr env ∧ addr.host = "127.0.0.1" ∧
    rpc_listen_request = "127.0.0.1:0" := by
  obtain ⟨-, -, -, -, g2, hg2, haddr, htr⟩ :=
    gateway_ok_inv env fs p (addr, handle) tr h
  rw [hg] at hg2
  injection hg2 with hg2
  subst hg2
  injection haddr with haddr1 haddr2
  subst htr
  refine ⟨?_, ?_, haddr1, ?_, rfl⟩
  · simp [createdClients, rpcGatewayTrace]
  · simp [registrations, rpcGatewayTrace]
  · rw [haddr1]
    rfl

/-- C6 witness: the gateway started over the concrete bootstrap trace. -/
theorem C6_single_client_four_apis_witness :
    createdClients (rpcGatewayTrace envAllOk (builtClient envAllOk none 0)) =
      [{ cfg := gatewayConfigOf envAllOk none 0, id := 0 }] ∧
    registrations (rpcGatewayTrace envAllOk (builtClient envAllOk none 0)) =
      [(Api.gatewayControl, { cfg := gatewayConfigOf envAllOk none 0, id := 0 }),
       (Api.readApi, { cfg := gatewayConfigOf envAllOk none 0, id := 0 }),
       (Api.transactionBuilder, { cfg := gatewayConfigOf envAllOk none 0, id := 0 }),
       (Api.walletSync, { cfg := gatewayConfigOf envAllOk none 0, id := 0 })] ∧
    boundAddr envAllOk = boundAddr envAllOk ∧
    (boundAddr envAllOk).host = "127.0.0.1" ∧
    rpc_listen_request = "127.0.0.1:0" :=
  C6_single_client_four_apis envAllOk (baseTrace envAllOk none 0)
    (pathJoin (builtSwarm envAllOk none 0).dir SUI_GATEWAY_CONFIG)
    (gatewayConfigOf envAllOk none 0) (boundAddr envAllOk) ()
    (rpcGatewayTrace envAllOk (builtClient envAllOk none 0)) (by rfl) (by rfl)

/-- C7: a successful bootstrap writes the four configuration artifacts in
exactly the order network config, keystore, gateway config, wallet config. -/
theorem C7_artifact_write_order (env : Env) (gc : Option GenesisConfig) (fc : Nat)
    (sw : Swarm) (tr : List Event)
    (h : start_test_network_with_fullnodes env gc fc = (Except.ok sw, tr)) :
    tr.filterMap bootstrapWriteKind =
      [ArtifactKind.network, ArtifactKind.keystore, ArtifactKind.gateway,
       ArtifactKind.wallet] := by
  obtain ⟨-, -, htr⟩ := base_ok_inv env gc fc sw tr h
  subst htr
  simp [baseTrace, bootstrapWriteKind]

/-- C7 witness: the concrete successful run. -/
theorem C7_artifact_write_order_witness :
    (baseTrace envAllOk none 0).filterMap bootstrapWriteKind =
      [ArtifactKind.network, ArtifactKind.keystore, ArtifactKind.gateway,
       ArtifactKind.wallet] :=
  C7_artifact_write_order envAllOk none 0 (builtSwarm envAllOk none 0)
    (baseTrace envAllOk none 0) (by rfl)

/-- C8: after a successful bootstrap, the persisted standalone gateway
configuration and the Embedded gateway configuration inside the persisted
wallet configuration are the same configuration: same validator set — the
swarm's — and same local storage path. -/
theorem C8_gateway_configs_agree (env : Env) (gc : Option GenesisConfig) (fc : Nat)
    (sw : Swarm) (tr : List Event)
    (h : start_test_network_with_fullnodes env gc fc = (Except.ok sw, tr)) :
    lastGatewayWrite tr (pathJoin sw.dir SUI_GATEWAY_CONFIG) =
      some (gatewayConfigOf env gc fc) ∧
    lastWalletWrite tr (pathJoin sw.dir SUI_CLIENT_CONFIG) =
      some (walletConfigOf env gc fc) ∧
    (walletConfigOf env gc fc).gateway =
      GatewayType.Embedded (gatewayConfigOf env gc fc) ∧
    (gatewayConfigOf env gc fc).validator_set = sw.config.validator_set ∧
    (gatewayConfigOf env gc fc).db_folder_path = pathJoin sw.dir "client_db" := by
  obtain ⟨-, hsw, htr⟩ := base_ok_inv env gc fc sw tr h
  subst hsw
  subst htr
  exact ⟨lastGatewayWrite_baseTrace env gc fc, lastWalletWrite_baseTrace env gc fc,
    rfl, rfl, rfl⟩

/-- C8 witness: the concrete successful run. -/
theorem C8_gateway_configs_agree_witness :
    lastGatewayWrite (baseTrace envAllOk none 0)
      (pathJoin (builtSwarm envAllOk none 0).dir SUI_GATEWAY_CONFIG) =
      some (gatewayConfigOf envAllOk none 0) ∧
    lastWalletWrite (baseTrace envAllOk none 0)
      (pathJoin (builtSwarm envAllOk none 0).dir SUI_CLIENT_CONFIG) =
      some (walletConfigOf envAllOk none 0) ∧
    (walletConfigOf envAllOk none 0).gateway =
      GatewayType.Embedded (gatewayConfigOf envAllOk none 0) ∧
    (gatewayConfigOf envAllOk none 0).validator_set =
      (builtSwarm envAllOk none 0).config.validator_set ∧
    (gatewayConfigOf envAllOk none 0).db_folder_path =
      pathJoin (builtSwarm envAllOk none 0).dir "client_db" :=
  C8_gateway_configs_agree envAllOk none 0 (builtSwarm envAllOk none 0)
    (baseTrace envAllOk none 0) (by rfl)

/-- C9: for both bootstrap pipelines, a failing stage makes the call return the
first failing stage's error, no later stage leaves an effect in the trace, and
no stage runs twice (trace stages strictly increase); the wrapper entry points
delegate directly with fullnode count 0, so the same holds for them. -/
theorem C9_error_propagation (env : Env) (gc : Option GenesisConfig) (fc : Nat) :
    (∀ e tr, start_test_network_with_fullnodes env gc fc = (Except.error e, tr) →
        first_failure_base env = some e ∧ ∀ ev ∈ tr, stageOf ev < errorStage e) ∧
    (∀ e tr, start_rpc_test_network_with_fullnode env gc fc = (Except.error e, tr) →
        first_failure_rpc env = some e ∧ ∀ ev ∈ tr, stageOf ev < errorStage e) ∧
    ((start_test_network_with_fullnodes env gc fc).2.map stageOf).Pairwise (· < ·) ∧
    ((start_rpc_test_network_with_fullnode env gc fc).2.map stageOf).Pairwise (· < ·) ∧
    start_test_network env gc = start_test_network_with_fullnodes env gc 0 ∧
    start_rpc_test_network env gc = start_rpc_test_network_with_fullnode env gc 0 := by
  refine ⟨?_, ?_, base_trace_pairwise env gc fc, rpc_trace_pairwise env gc fc, rfl, rfl⟩
  · intro e tr h
    obtain ⟨h1, h2, -⟩ := base_err_inv env gc fc e tr h
    exact ⟨h1, h2⟩
  · intro e tr h
    obtain ⟨h1, h2, -⟩ := rpc_err_inv env gc fc e tr h
    exact ⟨h1, h2⟩

/-- C9 witness: with a failing server bind, the concrete run surfaces the bind
error as the first failure, and the launch effect precedes the bind stage. -/
theorem C9_error_propagation_witness :
    first_failure_rpc envFailBind = some Error.bind ∧
    stageOf Event.launched < errorStage Error.bind :=
  ⟨((C9_error_propagation envFailBind none 0).2.1 Error.bind
      (baseTrace envFailBind none 0) (by rfl)).1,
   ((C9_error_propagation envFailBind none 0).2.1 Error.bind
      (baseTrace envFailBind none 0) (by rfl)).2 Event.launched (by decide)⟩

/-- C10: `setup_network_and_wallet` returns successfully only with a non-empty
provisioned account list, and then the returned address is the first account of
the wallet configuration; with an empty account list it panics (the `unwrap`)
instead of returning an error value. -/
theorem C10_setup_first_account (env : Env) :
    (∀ sw ctx addr tr,
        setup_network_and_wallet env = (Outcome.ok (sw, ctx, addr), tr) →
        ctx.config.accounts ≠ [] ∧ ctx.config.accounts.head? = some addr) ∧
    (baseAllOk env = true → env.new_context_ok = true →
      env.default_account_keys = [] →
      (setup_network_and_wallet env).1 = Outcome.panicked) := by
  constructor
  · intro sw ctx addr tr h
    obtain ⟨-, hh, hne⟩ := setup_ok_inv env sw ctx addr tr h
    exact ⟨hne, hh⟩
  · exact setup_panicked env

/-- C10 witness: with an empty default genesis the concrete run panics. -/
theorem C10_setup_first_account_witness :
    (setup_network_and_wallet envNoAccounts).1 = Outcome.panicked :=
  (C10_setup_first_account envNoAccounts).2 rfl rfl rfl

end SuiTest
